import Mathlib

/-!
Shallow embedding of `src/app.py` (a Streamlit CV-classifier front-end).

The program has one core function, `extract_text_from_file`, which turns an
uploaded file (a byte buffer plus a filename) into a string — either extracted
text or a sentinel error string — and a short top-level flow that chooses
between the extracted text and a manually pasted text, then runs the
classifier pipeline exactly when the chosen text is non-empty and contains
neither "Error" nor "Unsupported".

Modelling choices:
  * bytes are `List Nat` (each entry a byte value), decoded strings are
    `List Nat` of Unicode code points until converted to `String`;
  * the external docx and pdf parsers (`python-docx`, `pdfplumber`) are
    modelled as oracle fields of the uploaded file: `Except String α`
    where `.error e` stands for the parser raising an exception with
    message `e`, `.ok` for a successful parse (docx: the list of paragraph
    texts; pdf: `page.extract_text()` per page, `none` for a page with no
    text layer);
  * Python exceptions are modelled by the `Except` oracles; the Lean
    `extract_text_from_file` is a total function (the Python one catches
    every exception at its boundary);
  * the temporary-file side effect of the docx/pdf branches is tracked in
    the result record (`tmpCreated`, `tmpDeleted`);
  * The Python `codecs` decoding with `errors=ignore` is embedded
    directly: UTF-8 with maximal-subpart skipping of ill-formed sequences,
    latin-1 (identity on bytes), cp1252 (Windows table, the five unmapped
    bytes dropped);
  * `str.lower()` is embedded for ASCII letters (all extensions the
    program compares against are ASCII).
-/

/-! ## Python string containment (`pat in s`) -/

/-- Boolean test that `pat` is a leading segment of `l`. -/
def listIsPre : List Char → List Char → Bool
  | [], _ => true
  | _ :: _, [] => false
  | a :: as, b :: bs => a == b && listIsPre as bs

/-- Boolean test that `pat` occurs contiguously somewhere in `l`
(The Python `pat in s` on strings). -/
def listHasSub (pat : List Char) : List Char → Bool
  | [] => listIsPre pat []
  | c :: cs => listIsPre pat (c :: cs) || listHasSub pat cs

/-- The Python substring containment `pat in s`. -/
def pyIn (pat s : String) : Bool := listHasSub pat.toList s.toList

/-! ## Python text codecs with `errors=ignore` -/

/-- Continuation-byte test for UTF-8. -/
def isCont (b : Nat) : Bool := 0x80 ≤ b && b ≤ 0xBF

/-- Processing a byte as the start of a UTF-8 sequence: the code points
emitted and the new pending (incomplete-sequence) buffer. -/
def utf8Start (b : Nat) : List Nat × List Nat :=
  if b < 0x80 then ([b], [])
  else if 0xC2 ≤ b && b ≤ 0xF4 then ([], [b])
  else ([], [])

/-- Whether byte `b` is a valid next continuation for the pending bytes
(the first continuation range depends on the lead byte, ruling out
overlong encodings, surrogates and code points above U+10FFFF). -/
def utf8ContOk (pending : List Nat) (b : Nat) : Bool :=
  match pending with
  | [l] =>
    if l ≤ 0xDF then isCont b
    else if l = 0xE0 then 0xA0 ≤ b && b ≤ 0xBF
    else if l = 0xED then 0x80 ≤ b && b ≤ 0x9F
    else if l ≤ 0xEF then isCont b
    else if l = 0xF0 then 0x90 ≤ b && b ≤ 0xBF
    else if l = 0xF4 then 0x80 ≤ b && b ≤ 0x8F
    else isCont b
  | _ => isCont b

/-- Length (in bytes) of the UTF-8 sequence introduced by lead byte `l`. -/
def utf8SeqLen (l : Nat) : Nat :=
  if l ≤ 0xDF then 2 else if l ≤ 0xEF then 3 else 4

/-- Code point of a complete UTF-8 byte sequence. -/
def utf8Val (bytes : List Nat) : Nat :=
  match bytes with
  | [l, b1] => (l - 0xC0) * 0x40 + (b1 - 0x80)
  | [l, b1, b2] => (l - 0xE0) * 0x1000 + (b1 - 0x80) * 0x40 + (b2 - 0x80)
  | [l, b1, b2, b3] =>
    (l - 0xF0) * 0x40000 + (b1 - 0x80) * 0x1000 + (b2 - 0x80) * 0x40 + (b3 - 0x80)
  | _ => 0

/-- Driver of the UTF-8 decoder with `errors=ignore`: `pending` holds the
bytes of an incomplete sequence. An invalid byte discards the pending
maximal subpart and is reprocessed as a fresh sequence start. -/
def utf8Go (pending : List Nat) : List Nat → List Nat
  | [] => []
  | b :: bs =>
    match pending with
    | [] =>
      let s := utf8Start b
      s.1 ++ utf8Go s.2 bs
    | l :: rest =>
      if utf8ContOk (l :: rest) b then
        let seq := (l :: rest) ++ [b]
        if seq.length = utf8SeqLen l then utf8Val seq :: utf8Go [] bs
        else utf8Go seq bs
      else
        let s := utf8Start b
        s.1 ++ utf8Go s.2 bs

/-- The Python `bytes.decode(utf-8, errors=ignore)`. -/
def utf8Ignore (l : List Nat) : List Nat := utf8Go [] l

/-- The Python `bytes.decode(latin-1, errors=ignore)`: every byte maps to
the code point of the same value, no byte can fail. -/
def latin1Decode (l : List Nat) : List Nat := l

/-- Decoding table of one cp1252 byte: bytes 0x80–0x9F map through the
Windows-1252 table (`none` for the five unmapped bytes, which
`errors=ignore` drops); all other bytes map to themselves. -/
def cp1252Char (b : Nat) : Option Nat :=
  if b = 0x80 then some 0x20AC
  else if b = 0x82 then some 0x201A
  else if b = 0x83 then some 0x0192
  else if b = 0x84 then some 0x201E
  else if b = 0x85 then some 0x2026
  else if b = 0x86 then some 0x2020
  else if b = 0x87 then some 0x2021
  else if b = 0x88 then some 0x02C6
  else if b = 0x89 then some 0x2030
  else if b = 0x8A then some 0x0160
  else if b = 0x8B then some 0x2039
  else if b = 0x8C then some 0x0152
  else if b = 0x8E then some 0x017D
  else if b = 0x91 then some 0x2018
  else if b = 0x92 then some 0x2019
  else if b = 0x93 then some 0x201C
  else if b = 0x94 then some 0x201D
  else if b = 0x95 then some 0x2022
  else if b = 0x96 then some 0x2013
  else if b = 0x97 then some 0x2014
  else if b = 0x98 then some 0x02DC
  else if b = 0x99 then some 0x2122
  else if b = 0x9A then some 0x0161
  else if b = 0x9B then some 0x203A
  else if b = 0x9C then some 0x0153
  else if b = 0x9E then some 0x017E
  else if b = 0x9F then some 0x0178
  else if b = 0x81 || b = 0x8D || b = 0x8F || b = 0x90 || b = 0x9D then none
  else some b

/-- The Python `bytes.decode(cp1252, errors=ignore)`. -/
def cp1252Ignore (l : List Nat) : List Nat := l.filterMap cp1252Char

/-! ## Cleaning steps of the `.doc` branch -/

/-- The regex substitution of app.py line 49: a code point in
`[\x00-\x08\x0B\x0C\x0E-\x1F\x7F-\xFF]` is replaced by a space. -/
def stripByte (c : Nat) : Nat :=
  if c ≤ 8 || c = 0xB || c = 0xC || (0xE ≤ c && c ≤ 0x1F) || (0x7F ≤ c && c ≤ 0xFF)
  then 0x20 else c

/-- Pointwise application of `stripByte` (the `re.sub` call). -/
def pyStrip (l : List Nat) : List Nat := l.map stripByte

/-- The Python `str.isspace` on a single code point. -/
def pyIsSpace (c : Nat) : Bool :=
  (9 ≤ c && c ≤ 13) || (28 ≤ c && c ≤ 32) || c = 0x85 || c = 0xA0 ||
  c = 0x1680 || (0x2000 ≤ c && c ≤ 0x200A) || c = 0x2028 || c = 0x2029 ||
  c = 0x202F || c = 0x205F || c = 0x3000

/-- Accumulating splitter behind `pyTokens`: `acc` is the reversed current
token. -/
def pyTokensAux (acc : List Nat) : List Nat → List (List Nat)
  | [] => if acc = [] then [] else [acc.reverse]
  | c :: cs =>
    if pyIsSpace c then
      if acc = [] then pyTokensAux [] cs else acc.reverse :: pyTokensAux [] cs
    else pyTokensAux (c :: acc) cs

/-- The Python `str.split()` (no argument): maximal runs of non-whitespace. -/
def pyTokens (l : List Nat) : List (List Nat) := pyTokensAux [] l

/-- The Python `space.join(text.split())` of app.py line 50. -/
def pyNormalizeWs (l : List Nat) : List Nat := List.intercalate [0x20] (pyTokens l)

/-- Conversion of a list of code points to a Lean string (all code points
produced by the decoders are valid scalar values). -/
def codepointsToString (l : List Nat) : String := String.mk (l.map Char.ofNat)

/-! ## Filename extension (app.py line 23) -/

/-- The Python `str.lower()` restricted to ASCII letters. -/
def pyLower (c : Char) : Char :=
  if 'A' ≤ c ∧ c ≤ 'Z' then Char.ofNat (c.toNat + 32) else c

/-- The Python `name.split(dot)` on the character list. -/
def pySplitDot : List Char → List (List Char)
  | [] => [[]]
  | c :: cs =>
    let r := pySplitDot cs
    if c = '.' then [] :: r
    else (c :: r.headD []) :: r.tail

/-- App.py line 23: `uploaded_file.name.split(dot)[-1].lower()`. -/
def fileExtension (name : String) : String :=
  String.mk (((pySplitDot name.toList).getLastD []).map pyLower)

/-! ## The uploaded file and the extraction function -/

/-- An uploaded file: the filename, the byte buffer
(`getbuffer()` / `getvalue()`), and the two parser oracles. -/
structure UploadedFile where
  name : String
  content : List Nat
  docxResult : Except String (List String)
  pdfResult : Except String (List (Option String))

/-- Result of one call to `extract_text_from_file`: the returned string and
whether a temporary file was created / deleted during the call. -/
structure ExtractResult where
  text : String
  tmpCreated : Bool
  tmpDeleted : Bool
deriving DecidableEq

/-- The sentinel produced by the `except` handler at app.py lines 77–78. -/
def pyErrorMsg (e : String) : String :=
  "Error reading file: " ++ e ++ ", Paste the CV in the box provided"

/-- The pdf page filter of app.py line 70: keep `page.extract_text()`
results that are truthy (neither `None` nor the empty string). -/
def truthyPages (pages : List (Option String)) : List String :=
  pages.filterMap (fun o => o.bind (fun s => if s = "" then none else some s))

/-- One decode-and-clean pass of the `.doc` branch (lines 46–50). -/
def docClean (decoded : List Nat) : List Nat := pyNormalizeWs (pyStrip decoded)

/-- The encoding loop of the `.doc` branch (lines 44–58): first encoding
whose cleaned text exceeds 100 characters wins, truncated to 10000
characters; otherwise the empty string. -/
def docTry : List (List Nat → List Nat) → List Nat → String
  | [], _ => ""
  | d :: ds, content =>
    let t := docClean (d content)
    if 100 < t.length then codepointsToString (t.take 10000) else docTry ds content

/-- The whole `.doc` branch on the byte buffer. -/
def docBranch (content : List Nat) : String :=
  docTry [utf8Ignore, latin1Decode, cp1252Ignore] content

/-- Shallow embedding of `extract_text_from_file` (app.py lines 18–80),
together with the temporary-file side effects of the docx/pdf branches.
A parser oracle `.error e` stands for the parser raising; control then
reaches the `except` handler (lines 77–78) before the `os.unlink` call,
so the temporary file is not deleted on that path. -/
def extract_text_from_file (f : UploadedFile) : ExtractResult :=
  let ext := fileExtension f.name
  if ext = "docx" then
    match f.docxResult with
    | .ok paras => ⟨String.intercalate "\n" paras, true, true⟩
    | .error e => ⟨pyErrorMsg e, true, false⟩
  else if ext = "doc" then
    ⟨docBranch f.content, false, false⟩
  else if ext = "pdf" then
    match f.pdfResult with
    | .ok pages => ⟨String.intercalate "\n" (truthyPages pages), true, true⟩
    | .error e => ⟨pyErrorMsg e, true, false⟩
  else
    ⟨"Unsupported file format: ." ++ ext, false, false⟩

/-! ## The top-level app flow (app.py lines 94–130) -/

/-- One interactive run: an optional uploaded file and the content of the
manual-paste textbox. -/
structure RunInput where
  upload : Option UploadedFile
  manualText : String

/-- The value of `cv_text` after the upload block (lines 94–98): the
extraction result if a file was uploaded, otherwise the empty string. -/
def extractedText (r : RunInput) : String :=
  match r.upload with
  | some f => (extract_text_from_file f).text
  | none => ""

/-- The value of `cv_text` after the manual-paste fallback (lines 123–124):
`if not cv_text and manual_text: cv_text = manual_text`. -/
def cvText (r : RunInput) : String :=
  if extractedText r = "" ∧ r.manualText ≠ "" then r.manualText else extractedText r

/-- The guard of the prediction block (app.py line 127):
`if cv_text and "Error" not in cv_text and "Unsupported" not in cv_text`. -/
def predictionPerformed (r : RunInput) : Bool :=
  cvText r != "" && !pyIn "Error" (cvText r) && !pyIn "Unsupported" (cvText r)

/-! ## Spec-side restatement of the `.doc` branch (for claim C5) -/

/-- Modelled from the claim wording, for comparison with the source
embedding: raw-decode under the candidate encodings utf-8, latin-1,
cp1252 (errors ignored), strip non-printable ranges, collapse whitespace,
and return the first cleaned text whose length exceeds 100 characters,
truncated to at most 10000 characters; otherwise the empty string. -/
def docSpecExtract (content : List Nat) : String :=
  match ([utf8Ignore, latin1Decode, cp1252Ignore].map
      (fun d => docClean (d content))).find? (fun t => decide (100 < t.length)) with
  | some t => codepointsToString (t.take 10000)
  | none => ""

/-- Boolean success test of a parser oracle. -/
def isOkE {ε α : Type} : Except ε α → Bool
  | .ok _ => true
  | .error _ => false

/-! ## Helper lemmas -/

theorem listIsPre_refl (l : List Char) : listIsPre l l = true := by
  induction l with
  | nil => rfl
  | cons c cs ih => simp [listIsPre, ih]

theorem listIsPre_append (p l r : List Char) (h : listIsPre p l = true) :
    listIsPre p (l ++ r) = true := by
  induction p generalizing l with
  | nil => rfl
  | cons a as ih =>
    cases l with
    | nil => simp [listIsPre] at h
    | cons b bs =>
      simp [listIsPre] at h ⊢
      exact ⟨h.1, ih bs h.2⟩

theorem listHasSub_of_isPre (p l : List Char) (h : listIsPre p l = true) :
    listHasSub p l = true := by
  cases l with
  | nil => simpa [listHasSub] using h
  | cons c cs => simp [listHasSub, h]

theorem listHasSub_append_right (p l r : List Char) (h : listHasSub p r = true) :
    listHasSub p (l ++ r) = true := by
  induction l with
  | nil => simpa using h
  | cons c cs ih => simp [listHasSub, ih]

theorem toList_append (s t : String) : (s ++ t).toList = s.toList ++ t.toList := by
  simp [String.toList, String.data_append]

theorem pyIn_append_left (pat s t : String) (h : listIsPre pat.toList s.toList = true) :
    pyIn pat (s ++ t) = true := by
  unfold pyIn
  rw [toList_append]
  exact listHasSub_of_isPre _ _ (listIsPre_append _ _ _ h)

theorem pyIn_append_right (pat s t : String) (h : listIsPre pat.toList t.toList = true) :
    pyIn pat (s ++ t) = true := by
  unfold pyIn
  rw [toList_append]
  exact listHasSub_append_right _ _ _ (listHasSub_of_isPre _ _ h)

theorem pyIn_errorMsg (e : String) : pyIn "Error reading file" (pyErrorMsg e) = true := by
  unfold pyErrorMsg
  rw [String.append_assoc]
  exact pyIn_append_left _ _ _ (by decide)

theorem pySplitDot_no_dot (l : List Char) (h : '.' ∉ l) : pySplitDot l = [l] := by
  induction l with
  | nil => rfl
  | cons c cs ih =>
    simp only [List.mem_cons, not_or] at h
    have hc : ¬(c = '.') := fun hc => h.1 hc.symm
    simp [pySplitDot, ih h.2, hc]

theorem docTry_eq_find (encs : List (List Nat → List Nat)) (content : List Nat) :
    docTry encs content =
      match (encs.map (fun d => docClean (d content))).find?
          (fun t => decide (100 < t.length)) with
      | some t => codepointsToString (t.take 10000)
      | none => "" := by
  induction encs with
  | nil => rfl
  | cons d ds ih =>
    by_cases h : 100 < (docClean (d content)).length
    · simp [docTry, h, List.find?_cons_of_pos, List.map_cons]
    · simp only [docTry, if_neg h, List.map_cons]
      rw [List.find?_cons_of_neg _ (by simpa using h)]
      exact ih

/-! ## Claims -/

/-- C1: for every run, whatever text value was obtained (from file
extraction or the manual paste box), the prediction block runs if and only
if that text is non-empty and contains neither the substring "Error" nor
the substring "Unsupported"; in particular genuine text containing one of
those words suppresses prediction. -/
theorem claim_C1_prediction_guard (r : RunInput) :
    predictionPerformed r = true ↔
      cvText r ≠ "" ∧ pyIn "Error" (cvText r) = false ∧
        pyIn "Unsupported" (cvText r) = false := by
  simp [predictionPerformed, Bool.and_eq_true, bne_iff_ne, Bool.not_eq_true',
    and_assoc]

/-- C2: extraction never raises past its boundary (the embedding is a total
function), and whenever the underlying parser of a docx or pdf upload
raises an exception, the returned string contains "Error reading file". -/
theorem claim_C2_extraction_error_sentinel (f : UploadedFile) (e : String)
    (h : (fileExtension f.name = "docx" ∧ f.docxResult = Except.error e) ∨
         (fileExtension f.name = "pdf" ∧ f.pdfResult = Except.error e)) :
    pyIn "Error reading file" (extract_text_from_file f).text = true := by
  rcases h with ⟨hx, hr⟩ | ⟨hx, hr⟩ <;>
    simp [extract_text_from_file, hx, hr, pyIn_errorMsg]

/-- Witness for C2 at a concrete corrupt pdf upload. -/
theorem claim_C2_witness :
    pyIn "Error reading file"
      (extract_text_from_file
        ⟨"cv.pdf", [], Except.ok [], Except.error "boom"⟩).text = true :=
  claim_C2_extraction_error_sentinel _ "boom" (Or.inr ⟨by decide, rfl⟩)

/-- C3 counterexample: the code has no txt branch at all — a `.txt` upload
with known ASCII content "hello" yields the unsupported-format sentinel,
not the content. -/
theorem claim_C3_counterexample :
    (extract_text_from_file
        ⟨"cv.txt", [104, 101, 108, 108, 111], Except.ok [], Except.ok []⟩).text
      = "Unsupported file format: .txt" ∧
    (extract_text_from_file
        ⟨"cv.txt", [104, 101, 108, 108, 111], Except.ok [], Except.ok []⟩).text
      ≠ "hello" := by
  constructor
  · decide
  · decide

/-- C3 amended: a file whose extension is txt is not supported; extraction
returns the string "Unsupported file format: .txt" regardless of the
buffer content. -/
theorem claim_C3_amended (name : String) (content : List Nat)
    (d : Except String (List String)) (p : Except String (List (Option String)))
    (h : fileExtension name = "txt") :
    (extract_text_from_file ⟨name, content, d, p⟩).text
      = "Unsupported file format: .txt" := by
  simp [extract_text_from_file, h]

/-- Witness for the amended C3 at a concrete upload. -/
theorem claim_C3_witness :
    (extract_text_from_file
        ⟨"resume.TXT", [104], Except.ok [], Except.ok []⟩).text
      = "Unsupported file format: .txt" :=
  claim_C3_amended "resume.TXT" [104] (Except.ok []) (Except.ok []) (by decide)

/-- C4: the pasted text becomes cv_text exactly when the file-extraction
result is the empty string and the pasted text is non-empty; otherwise
cv_text stays the extraction result, so a non-empty extraction result is
never overridden. -/
theorem claim_C4_manual_fallback (r : RunInput) :
    (extractedText r = "" ∧ r.manualText ≠ "" → cvText r = r.manualText) ∧
    (¬(extractedText r = "" ∧ r.manualText ≠ "") → cvText r = extractedText r) := by
  constructor
  · intro h
    simp only [cvText, if_pos h]
  · intro h
    simp only [cvText, if_neg h]

/-- Witness for C4: the pasted text is used when extraction yields "", and
ignored when extraction yields a non-empty string. -/
theorem claim_C4_witness :
    cvText ⟨some ⟨"cv.doc", [], Except.ok [], Except.ok []⟩, "pasted"⟩ = "pasted" ∧
    cvText ⟨some ⟨"cv.rtf", [], Except.ok [], Except.ok []⟩, "pasted"⟩
      = "Unsupported file format: .rtf" := by
  constructor
  · exact (claim_C4_manual_fallback _).1 ⟨by decide, by decide⟩
  · exact ((claim_C4_manual_fallback _).2 (by decide)).trans (by decide)

/-- C5: on a doc upload, extraction raw-decodes the buffer under the
candidate encodings utf-8, latin-1, cp1252 (errors ignored), strips
non-printable ranges, collapses whitespace runs to single spaces, and
returns the first cleaned text longer than 100 characters truncated to
10000 characters, or the empty string if no encoding yields such text. -/
theorem claim_C5_doc_branch (f : UploadedFile) (h : fileExtension f.name = "doc") :
    (extract_text_from_file f).text = docSpecExtract f.content := by
  have : (extract_text_from_file f).text = docBranch f.content := by
    simp [extract_text_from_file, h]
  rw [this, docBranch, docSpecExtract, docTry_eq_find]

/-- Witness for C5 at a concrete doc upload. -/
theorem claim_C5_witness :
    (extract_text_from_file
        ⟨"cv.doc", [104, 105], Except.ok [], Except.ok []⟩).text
      = docSpecExtract [104, 105] :=
  claim_C5_doc_branch _ (by decide)

/-- C6 counterexample: for a pdf upload whose parser raises, the temporary
file is created but control reaches the exception handler before the
unlink call, so the temporary file is not deleted. -/
theorem claim_C6_counterexample :
    (extract_text_from_file
        ⟨"cv.pdf", [], Except.ok [], Except.error "parse failure"⟩).tmpCreated = true ∧
    (extract_text_from_file
        ⟨"cv.pdf", [], Except.ok [], Except.error "parse failure"⟩).tmpDeleted = false := by
  decide

/-- C6 amended: docx and pdf uploads write the buffer to a temporary file,
and that file is deleted before control returns exactly when the
underlying parser does not raise; when the parser raises, the unlink is
skipped and the temporary file leaks. No other branch creates a
temporary file. -/
theorem claim_C6_amended (f : UploadedFile) :
    (fileExtension f.name = "docx" →
      (extract_text_from_file f).tmpCreated = true ∧
      ((extract_text_from_file f).tmpDeleted = true ↔ isOkE f.docxResult = true)) ∧
    (fileExtension f.name = "pdf" →
      (extract_text_from_file f).tmpCreated = true ∧
      ((extract_text_from_file f).tmpDeleted = true ↔ isOkE f.pdfResult = true)) ∧
    (fileExtension f.name ≠ "docx" → fileExtension f.name ≠ "pdf" →
      (extract_text_from_file f).tmpCreated = false) := by
  refine ⟨fun h => ?_, fun h => ?_, fun h1 h2 => ?_⟩
  · cases hd : f.docxResult <;> simp [extract_text_from_file, h, hd, isOkE]
  · cases hd : f.pdfResult <;> simp [extract_text_from_file, h, hd, isOkE]
  · by_cases hdoc : fileExtension f.name = "doc" <;>
      simp [extract_text_from_file, h1, h2, hdoc]

/-- Witness for the amended C6: deletion on a successful docx parse, leak
on a failing pdf parse, no temporary file on the doc branch. -/
theorem claim_C6_witness :
    (extract_text_from_file
        ⟨"a.docx", [], Except.ok ["A"], Except.ok []⟩).tmpDeleted = true ∧
    (extract_text_from_file
        ⟨"b.pdf", [], Except.ok [], Except.error "x"⟩).tmpDeleted = false ∧
    (extract_text_from_file
        ⟨"c.doc", [], Except.ok [], Except.ok []⟩).tmpCreated = false := by
  refine ⟨((claim_C6_amended _).1 (by decide)).2.mpr (by decide), ?_, ?_⟩
  · have h := ((claim_C6_amended
      ⟨"b.pdf", [], Except.ok [], Except.error "x"⟩).2.1 (by decide)).2
    simpa [isOkE] using h
  · exact (claim_C6_amended _).2.2 (by decide) (by decide)

/-- C7: a docx upload is parsed as a structured document and the paragraph
texts are joined with single newline separators in document order. -/
theorem claim_C7_docx_paragraphs (f : UploadedFile) (paras : List String)
    (h : fileExtension f.name = "docx") (hp : f.docxResult = Except.ok paras) :
    (extract_text_from_file f).text = String.intercalate "\n" paras := by
  simp [extract_text_from_file, h, hp]

/-- Witness for C7: a document with paragraphs ["A","B"] yields "A\nB". -/
theorem claim_C7_witness :
    (extract_text_from_file
        ⟨"cv.docx", [], Except.ok ["A", "B"], Except.ok []⟩).text = "A\nB" :=
  (claim_C7_docx_paragraphs _ ["A", "B"] (by decide) rfl).trans (by decide)

/-- C8: for any extension other than docx, doc, pdf, extraction returns
exactly "Unsupported file format: ." followed by the extension; hence the
result contains "Unsupported file format" and contains a dot followed by
the extension. -/
theorem claim_C8_unsupported (f : UploadedFile)
    (h1 : fileExtension f.name ≠ "docx") (h2 : fileExtension f.name ≠ "doc")
    (h3 : fileExtension f.name ≠ "pdf") :
    (extract_text_from_file f).text
        = "Unsupported file format: ." ++ fileExtension f.name ∧
    pyIn "Unsupported file format" (extract_text_from_file f).text = true ∧
    pyIn ("." ++ fileExtension f.name) (extract_text_from_file f).text = true := by
  have htext : (extract_text_from_file f).text
      = "Unsupported file format: ." ++ fileExtension f.name := by
    simp [extract_text_from_file, h1, h2, h3]
  have hsplit : ("Unsupported file format: ." ++ fileExtension f.name)
      = "Unsupported file format: " ++ ("." ++ fileExtension f.name) := by
    rw [← String.append_assoc]
    rfl
  refine ⟨htext, ?_, ?_⟩
  · rw [htext]
    exact pyIn_append_left _ _ _ (by decide)
  · rw [htext, hsplit]
    exact pyIn_append_right _ _ _ (listIsPre_refl _)

/-- Witness for C8 at a concrete rtf upload. -/
theorem claim_C8_witness :
    (extract_text_from_file ⟨"cv.rtf", [], Except.ok [], Except.ok []⟩).text
        = "Unsupported file format: .rtf" ∧
    pyIn "Unsupported file format"
      (extract_text_from_file ⟨"cv.rtf", [], Except.ok [], Except.ok []⟩).text = true := by
  have h := claim_C8_unsupported ⟨"cv.rtf", [], Except.ok [], Except.ok []⟩
    (by decide) (by decide) (by decide)
  exact ⟨h.1.trans (by decide), h.2.1⟩

/-- C9: when file extraction returns a non-empty string containing "Error"
or "Unsupported", the manual-paste fallback has no effect (cv_text stays
the sentinel) and no prediction occurs for that run, whatever the user
pasted. -/
theorem claim_C9_sentinel_blocks_paste (r : RunInput)
    (hne : extractedText r ≠ "")
    (hs : pyIn "Error" (extractedText r) = true ∨
          pyIn "Unsupported" (extractedText r) = true) :
    cvText r = extractedText r ∧ predictionPerformed r = false := by
  have hcv : cvText r = extractedText r := by
    simp [cvText, hne]
  refine ⟨hcv, ?_⟩
  rcases hs with h | h <;> simp [predictionPerformed, hcv, h]

/-- Witness for C9: an unsupported upload together with pasted CV text
still yields no prediction. -/
theorem claim_C9_witness :
    cvText ⟨some ⟨"cv.rtf", [], Except.ok [], Except.ok []⟩, "valid CV text"⟩
        = "Unsupported file format: .rtf" ∧
    predictionPerformed
      ⟨some ⟨"cv.rtf", [], Except.ok [], Except.ok []⟩, "valid CV text"⟩ = false := by
  have h := claim_C9_sentinel_blocks_paste
    ⟨some ⟨"cv.rtf", [], Except.ok [], Except.ok []⟩, "valid CV text"⟩
    (by decide) (Or.inr (by decide))
  exact ⟨h.1.trans (by decide), h.2⟩

/-- C10 counterexample: a file named "pdf" (no dot) does not yield the
unsupported-format sentinel — the whole lowercased name becomes the
extension, which dispatches to the pdf branch. -/
theorem claim_C10_counterexample :
    (extract_text_from_file
        ⟨"pdf", [], Except.ok [], Except.ok [some "Hello CV"]⟩).text = "Hello CV" ∧
    pyIn "Unsupported"
      (extract_text_from_file
        ⟨"pdf", [], Except.ok [], Except.ok [some "Hello CV"]⟩).text = false := by
  decide

/-- C10 amended: dispatch depends only on the lowercased substring after
the last dot of the filename (given equal buffers and parser oracles,
equal extensions give equal results); matching is case-insensitive
("CV.PDF" is handled as pdf); for a dotless filename the entire lowercased
filename is the extension, and this yields the unsupported-format sentinel
unless that name is itself one of docx, doc, pdf. -/
theorem claim_C10_amended :
    (∀ f g : UploadedFile, fileExtension f.name = fileExtension g.name →
      f.content = g.content → f.docxResult = g.docxResult →
      f.pdfResult = g.pdfResult →
      extract_text_from_file f = extract_text_from_file g) ∧
    fileExtension "CV.PDF" = "pdf" ∧
    (∀ name : String, '.' ∉ name.toList →
      fileExtension name = String.mk (name.toList.map pyLower)) ∧
    (∀ f : UploadedFile, '.' ∉ f.name.toList →
      fileExtension f.name ≠ "docx" → fileExtension f.name ≠ "doc" →
      fileExtension f.name ≠ "pdf" →
      (extract_text_from_file f).text
        = "Unsupported file format: ." ++ fileExtension f.name) := by
  refine ⟨?_, by decide, ?_, ?_⟩
  · intro f g he hc hd hp
    simp only [extract_text_from_file]
    rw [he, hc, hd, hp]
  · intro name h
    have hs : pySplitDot name.data = [name.data] := pySplitDot_no_dot _ h
    simp [fileExtension, String.toList, hs]
  · intro f _ h1 h2 h3
    simp [extract_text_from_file, h1, h2, h3]

/-- Witness for the amended C10: two same-extension files extract equally,
"README" lowercases to "readme", and a dotless non-format name yields the
unsupported sentinel. -/
theorem claim_C10_witness :
    extract_text_from_file ⟨"one.pdf", [1], Except.ok [], Except.ok []⟩
        = extract_text_from_file ⟨"two.pdf", [1], Except.ok [], Except.ok []⟩ ∧
    fileExtension "README" = String.mk ("README".toList.map pyLower) ∧
    (extract_text_from_file ⟨"README", [], Except.ok [], Except.ok []⟩).text
        = "Unsupported file format: .readme" := by
  refine ⟨claim_C10_amended.1 _ _ (by decide) rfl rfl rfl, ?_, ?_⟩
  · exact claim_C10_amended.2.2.1 "README" (by decide)
  · exact (claim_C10_amended.2.2.2 ⟨"README", [], Except.ok [], Except.ok []⟩
      (by decide) (by decide) (by decide) (by decide)).trans (by decide)
